import Mathlib

/-!
Shallow embedding of the request/response orchestration core of the
`waldur_client` Python library (`src/waldur_client/__init__.py`): the
retrying request executor `_make_request`, the paginated reader
`_get_all`, the query/resolution helpers `_make_get_query`,
`_query_resource`, `_get_resource` with `is_uuid`, and the pollers
`_wait_for_resource` / `_wait_for_external_ip`.

The network is abstracted by scripted transports (a function from the
call index, or from the URL, to a response); `time.sleep` is modelled by
accumulating the requested durations in a list; Python exceptions become
an explicit error type `WErr`; `%`-string formatting is modelled by
`pyFormat`, including its arity check (a `TypeError` on mismatch).
-/

namespace Waldur

/-- A JSON object (resource representation) as an association list. -/
abbrev Rec := List (String × String)

/-- A query-parameter dictionary, in insertion order. -/
abbrev Query := List (String × String)

/-- Scanner for Python `str.split(sep)`: walk the character list, fuel
bounds the recursion (one unit per step, the fuel is initialized above
the list length so it never runs out). -/
def pySplitAux (sep : List Char) : Nat → List Char → List Char →
    List (List Char)
  | 0, rest, acc => [acc.reverse ++ rest]
  | fuel + 1, s, acc =>
    match s with
    | [] => [acc.reverse]
    | c :: rest =>
      if sep.isPrefixOf (c :: rest) then
        acc.reverse :: pySplitAux sep fuel ((c :: rest).drop sep.length) []
      else pySplitAux sep fuel rest (c :: acc)

/-- Python `s.split(sep)` for a non-empty separator. -/
def pySplit (s sep : String) : List String :=
  (pySplitAux sep.toList (s.toList.length + 1) s.toList []).map String.mk

/-- Joining a list of strings with a separator (Python `sep.join`). -/
def joinSep (sep : String) : List String → String
  | [] => ""
  | [x] => x
  | x :: xs => x ++ sep ++ joinSep sep xs

/-- Python `s.replace(pat, sub)` for a non-empty pattern: replace every
occurrence, scanning left to right. -/
def pyReplace (s pat sub : String) : String := joinSep sub (pySplit s pat)

/-- Python substring test `sub in s` (for non-empty `sub`). -/
def pyContains (s sub : String) : Bool := 2 ≤ (pySplit s sub).length

/-- Python `s.endswith(suffix)`. -/
def pyEndsWith (s suffix : String) : Bool :=
  suffix.toList.isSuffixOf s.toList

/-- Python slice `s[1:-1]`: drop the first and the last character. -/
def pySlice1m1 (s : String) : String :=
  String.mk ((s.toList.drop 1).dropLast)

/-- Python `str.strip(chars)`: remove the characters satisfying `p`
from both ends. -/
def pyStrip (s : String) (p : Char → Bool) : String :=
  String.mk (((s.toList.dropWhile p).reverse.dropWhile p).reverse)

/-- Interpolation of arguments into the pieces of a format string that
was split on the placeholder. -/
def pyInterp : List String → List String → String
  | [], _ => ""
  | [piece], _ => piece
  | piece :: rest, [] => piece ++ pyInterp rest []
  | piece :: rest, a :: as => piece ++ a ++ pyInterp rest as

/-- Python `fmt % args` restricted to string conversions: substitute each
placeholder in order; if the number of arguments differs from the number
of placeholders, the operation fails like Python's `TypeError`
(both "not enough arguments" and "not all arguments converted").
The boolean result is `none` exactly on the `TypeError` case. -/
def pyFormat (fmt : String) (args : List String) : Option String :=
  let parts := pySplit fmt "%s"
  if args.length ≠ parts.length - 1 then none
  else some (pyInterp parts args)

/-- Python hex digit test for `int(s, 16)`. -/
def isHexDig (c : Char) : Bool :=
  c.isDigit || ('a' ≤ c && c ≤ 'f') || ('A' ≤ c && c ≤ 'F')

/-- Digits-with-single-underscores core of Python `int(s, 16)`:
non-empty groups of hex digits separated by single underscores. -/
def hexCoreOk (cs : List Char) : Bool :=
  let groups := pySplitAux ['_'] (cs.length + 1) cs []
  cs ≠ [] && groups.all (fun g => g ≠ [] && g.all isHexDig)

/-- Python `int(s, 16)` success predicate: optional surrounding
whitespace, an optional sign, an optional `0x`/`0X` prefix (which may be
followed by one underscore), then underscore-separated hex digits. -/
def pyIntParses16 (s : String) : Bool :=
  let cs := ((s.toList.dropWhile Char.isWhitespace).reverse.dropWhile
    Char.isWhitespace).reverse
  let cs := match cs with
    | '+' :: rest => rest
    | '-' :: rest => rest
    | rest => rest
  match cs with
  | '0' :: 'x' :: rest =>
      hexCoreOk (match rest with | '_' :: r => r | r => r)
  | '0' :: 'X' :: rest =>
      hexCoreOk (match rest with | '_' :: r => r | r => r)
  | rest => hexCoreOk rest

/-- Test for the brace characters stripped by Python's
`hex.strip(chars)` call inside the `UUID` constructor (the two brace
characters, written by code point to keep them out of the source). -/
def isBraceChar (c : Char) : Bool :=
  c = Char.ofNat 123 || c = Char.ofNat 125

/-- Translation of the module-level `is_uuid`: `UUID(value)` succeeds iff
after removing `urn:` and `uuid:` markers, stripping braces and removing
dashes, exactly 32 characters remain and they parse under `int(_, 16)`. -/
def is_uuid (value : String) : Bool :=
  let h := pyReplace (pyReplace value "urn:" "") "uuid:" ""
  let h := pyReplace (pyStrip h isBraceChar) "-" ""
  h.length = 32 && pyIntParses16 h

/-- Outcome classification for the exceptions raised by the client
(subclasses of `WaldurClientException` are told apart by their raise
site and carried data) together with the Python built-in exceptions the
code can hit (`KeyError`, `IndexError`, `TypeError`). -/
inductive WErr where
  /-- The `retry_count == 0` raise in `_make_request`: "Reached a limit
  of retries for the operation: method url, body: prev". -/
  | retriesExhausted (method url : String) (body : Option String)
  /-- A `requests.exceptions.RequestException` wrapped into
  `WaldurClientException`. -/
  | transport
  /-- The `_parse_error` raise on a status outside `valid_states`. -/
  | requestError (url : String) (status : Nat) (body : String)
  /-- `ObjectDoesNotExist` from `_make_get_query`. -/
  | objectDoesNotExist (url : String) (query : Query)
  /-- `MultipleObjectsReturned` from `_make_get_query`. -/
  | multipleObjectsReturned (url : String) (query : Query)
  /-- `TimeoutError` with its message. -/
  | timeoutError (msg : String)
  /-- `InvalidStateError` ("Resource is in erred state."). -/
  | invalidState
  /-- The "Empty ID is not allowed." raise in `_get_resource`. -/
  | emptyId
  /-- Python `KeyError` (missing header key). -/
  | keyError
  /-- Python `IndexError` (list index out of range). -/
  | indexError
  /-- Python `TypeError` (string-format arity mismatch). -/
  | typeError
deriving Repr, DecidableEq

/-- An HTTP response as observed by `_make_request`: status code, body
text, and the `Location` header when present. -/
structure Response where
  status : Nat
  text : String
  location : Option String
deriving Repr, DecidableEq

/-- A scripted transport for `_make_request`: the value of the n-th
`requests.<method>` call, `none` meaning the call raised a
`requests.exceptions.RequestException`. -/
abbrev Server := Nat → Option Response

/-- What `_make_request` returns on success: the raw response for
`head`, the parsed body when the body text is non-empty, else `""`. -/
inductive ReqOutcome where
  | headResp (r : Response)
  | json (text : String)
  | emptyStr
deriving Repr, DecidableEq

/-- Book-keeping threaded through a `_make_request` run: how many
transport calls were made, and the durations of the `time.sleep` calls
in order. -/
structure MRState where
  calls : Nat
  sleeps : List Nat
deriving Repr, DecidableEq

/-- The redirect statuses checked by `_make_request`. -/
def redirectCodes : List Nat := [301, 302, 303, 307, 308]

/-- Translation of `_make_request(method, url, valid_states, retry_count,
prev_response_data, ...)`. The first explicit argument is recursion fuel
(the Python recursion has no a-priori bound because redirects do not
decrement `retry_count`); `none` means the fuel ran out, i.e. the run
performed that many recursive calls without finishing. -/
def makeRequestAux (server : Server) (method : String)
    (validStates : List Nat) :
    Nat → String → Nat → Option String → MRState →
    Option (Except WErr ReqOutcome × MRState)
  | 0, _, _, _, _ => none
  | fuel + 1, url, retryCount, prev, st =>
    if retryCount = 0 then
      some (.error (.retriesExhausted method url prev), st)
    else
      match server st.calls with
      | none => some (.error .transport, ⟨st.calls + 1, st.sleeps⟩)
      | some resp =>
        let st' : MRState := ⟨st.calls + 1, st.sleeps⟩
        if method = "post" ∧ resp.status ∈ redirectCodes then
          match resp.location with
          | none => some (.error .keyError, st')
          | some loc =>
              makeRequestAux server method validStates fuel loc
                retryCount none st'
        else if resp.status ∉ validStates then
          if resp.status = 409 then
            makeRequestAux server method validStates fuel url
              (retryCount - 1) (some resp.text)
              ⟨st'.calls, st'.sleeps ++ [2]⟩
          else
            some (.error (.requestError url resp.status resp.text), st')
        else if method = "head" then some (.ok (.headResp resp), st')
        else if resp.text ≠ "" then some (.ok (.json resp.text), st')
        else some (.ok .emptyStr, st')

/-- The default `retry_count` of `_make_request`. -/
def defaultRetryCount : Nat := 3

/-- Initial book-keeping state of a top-level call. -/
def mrInit : MRState := ⟨0, []⟩

/-- The `_get` helper: `_make_request("get", url, valid_states, 1)`. -/
def mrGet (server : Server) (url : String) (validStates : List Nat)
    (fuel : Nat) : Option (Except WErr ReqOutcome × MRState) :=
  makeRequestAux server "get" validStates fuel url 1 none mrInit

/-- The `_head` helper: `_make_request("head", url, valid_states=[200])`
with the default retry count. -/
def mrHead (server : Server) (url : String) (fuel : Nat) :
    Option (Except WErr ReqOutcome × MRState) :=
  makeRequestAux server "head" [200] fuel url defaultRetryCount none mrInit

/-- The `_post` helper (default retry count). -/
def mrPost (server : Server) (url : String) (validStates : List Nat)
    (fuel : Nat) : Option (Except WErr ReqOutcome × MRState) :=
  makeRequestAux server "post" validStates fuel url defaultRetryCount
    none mrInit

/-- The `_put` helper (default retry count). -/
def mrPut (server : Server) (url : String) (validStates : List Nat)
    (fuel : Nat) : Option (Except WErr ReqOutcome × MRState) :=
  makeRequestAux server "put" validStates fuel url defaultRetryCount
    none mrInit

/-- The `_patch` helper (default retry count). -/
def mrPatch (server : Server) (url : String) (validStates : List Nat)
    (fuel : Nat) : Option (Except WErr ReqOutcome × MRState) :=
  makeRequestAux server "patch" validStates fuel url defaultRetryCount
    none mrInit

/-- The `_delete` helper (default retry count). -/
def mrDelete (server : Server) (url : String) (validStates : List Nat)
    (fuel : Nat) : Option (Except WErr ReqOutcome × MRState) :=
  makeRequestAux server "delete" validStates fuel url defaultRetryCount
    none mrInit

/-- A response as observed by `_get_all`: status code, the parsed JSON
body (a list of records), and the `Link` header when present. -/
structure PageResponse where
  status : Nat
  body : List Rec
  link : Option String
deriving Repr, DecidableEq

/-- A scripted transport for the page fetches of `_get_all`, keyed by
URL; `none` means the request raised. -/
abbrev PageServer := String → Option PageResponse

/-- Translation of the `next_url` extraction inside `_get_all`'s loop:
positional parsing of the `Link` header, `split(", ")[2]` when the
header mentions `prev`, `split(", ")[1]` on the first page, then
`split("; ")[0][1:-1]`; a missing position is Python's `IndexError`. -/
def parseNextUrl (link : String) : Except WErr String :=
  if pyContains link "prev" then
    match (pySplit link ", ").get? 2 with
    | none => .error .indexError
    | some part => .ok (pySlice1m1 ((pySplit part "; ").headD ""))
  else
    match (pySplit link ", ").get? 1 with
    | none => .error .indexError
    | some part => .ok (pySlice1m1 ((pySplit part "; ").headD ""))

/-- Translation of the `while "next" in response.headers["Link"]` loop of
`_get_all`, with `fetchA` the transport carrying only the auth
parameters (the loop's `requests.get(next_url, **auth_params)`). The
first argument is loop fuel; `none` means the loop ran that many times
without finishing. Reading the `Link` header of a response that lacks
one is Python's `KeyError`. -/
def getAllLoop (fetchA : PageServer) :
    Nat → List Rec → PageResponse → Option (Except WErr (List Rec))
  | 0, _, _ => none
  | fuel + 1, result, resp =>
    match resp.link with
    | none => some (.error .keyError)
    | some link =>
      if pyContains link "next" then
        match parseNextUrl link with
        | .error e => some (.error e)
        | .ok nextUrl =>
          match fetchA nextUrl with
          | none => some (.error .transport)
          | some r2 =>
            if r2.status ≠ 200 then
              some (.error (.requestError nextUrl r2.status ""))
            else getAllLoop fetchA fuel (result ++ r2.body) r2
      else some (.ok result)

/-- Translation of `_get_all(url, **kwargs)`: `fetchP` performs the first
request (auth parameters plus the caller's filters), `fetchA` the
subsequent ones (auth parameters only). A first page without a `Link`
header is returned as-is; otherwise the positional `next`-following loop
runs. -/
def getAll (fetchP fetchA : PageServer) (url : String) (fuel : Nat) :
    Option (Except WErr (List Rec)) :=
  match fetchP url with
  | none => some (.error .transport)
  | some resp =>
    if resp.status ≠ 200 then
      some (.error (.requestError url resp.status ""))
    else
      match resp.link with
      | none => some (.ok resp.body)
      | some _ => getAllLoop fetchA fuel resp.body resp

/-- The value `self._get(url, valid_states=[200], params=query_params)`
hands to `_make_get_query`: the empty string (empty body), a single
JSON object, or a JSON list of records. -/
inductive GetRes where
  | emptyStr
  | dict (r : Rec)
  | list (xs : List Rec)
deriving Repr, DecidableEq

/-- Python truthiness of a `_get` result: `""`, `\x7b\x7d` and `[]` are
falsy. -/
def pyTruthyGetRes : GetRes → Bool
  | .emptyStr => false
  | .dict r => !r.isEmpty
  | .list xs => !xs.isEmpty

/-- What `_make_get_query` returns: a single record or a list. -/
inductive QueryOut where
  | one (r : Rec)
  | many (rs : List Rec)
deriving Repr, DecidableEq

/-- Translation of `_make_get_query(url, query_params, get_first,
get_few)`, with `res` standing for the value returned by the inner
`self._get` call. -/
def makeGetQuery (url : String) (queryParams : Query) (res : GetRes)
    (getFirst getFew : Bool) : Except WErr QueryOut :=
  if !pyTruthyGetRes res then
    .error (.objectDoesNotExist url queryParams)
  else
    match res with
    | .emptyStr => .error (.objectDoesNotExist url queryParams)
    | .dict r => .ok (.one r)
    | .list xs =>
      let tail : Except WErr QueryOut :=
        if getFew then .ok (.many xs)
        else
          match xs.head? with
          | some r => .ok (.one r)
          | none => .error .indexError
      if 1 < xs.length then
        if !getFirst && !getFew then
          .error (.multipleObjectsReturned url queryParams)
        else if getFew then .ok (.many xs)
        else tail
      else tail

/-- Translation of `_ensure_trailing_slash`. -/
def ensureTrailingSlash (url : String) : String :=
  if pyEndsWith url "/" then url else url ++ "/"

/-- Translation of `_build_url(endpoint)` for a relative endpoint path:
`urljoin` of the API root (which ends with a slash) with a relative path
appends it. -/
def buildUrl (apiUrl endpoint : String) : String :=
  apiUrl ++ ensureTrailingSlash endpoint

/-- Python `dict.update`: entries of `extra` override same-key entries of
`base` in place, new keys are appended in order. -/
def pyUpdate (base extra : Query) : Query :=
  extra.foldl
    (fun acc kv =>
      if acc.any (fun p => p.1 = kv.1) then
        acc.map (fun p => if p.1 = kv.1 then (p.1, kv.2) else p)
      else acc ++ [kv])
    base

/-- Python `key in dict` / `dict.pop(key)` lookup on a query dict. -/
def lookupQ (q : Query) (k : String) : Option String :=
  (q.find? (fun p => p.1 = k)).map (fun p => p.2)

/-- The URL and query parameters of the single GET issued by
`_query_resource` (through `_make_get_query` and `_get`). -/
structure IssuedQuery where
  url : String
  params : Query
deriving Repr, DecidableEq

/-- Translation of the request-construction part of
`_query_resource(endpoint, query_params)`: build the collection URL and,
when the parameters carry a `uuid` key, pop it into the URL path. -/
def queryResourceIssued (apiUrl endpoint : String) (queryParams : Query) :
    IssuedQuery :=
  let url := buildUrl apiUrl endpoint
  match lookupQ queryParams "uuid" with
  | some v =>
      ⟨url ++ v ++ "/", queryParams.filter (fun p => p.1 ≠ "uuid")⟩
  | none => ⟨url, queryParams⟩

/-- Payload construction of `_query_resource_by_uuid`. -/
def queryResourceByUuidPayload (value : String) (extra : Option Query) :
    Query :=
  match extra with
  | some e => pyUpdate [("uuid", value)] e
  | none => [("uuid", value)]

/-- Payload construction of `_query_resource_by_name`. -/
def queryResourceByNamePayload (value : String) (extra : Option Query) :
    Query :=
  match extra with
  | some e => pyUpdate [("name_exact", value)] e
  | none => [("name_exact", value)]

/-- Translation of `_get_resource(endpoint, value, extra)` down to the
single GET request it issues: an empty value is rejected before any
classification; otherwise `is_uuid` picks the uuid payload or the
`name_exact` payload, and `_query_resource` turns the payload into the
issued request. The classification is the pure function `is_uuid`. -/
def getResourceIssued (apiUrl endpoint value : String)
    (extra : Option Query) : Except WErr IssuedQuery :=
  if value = "" then .error .emptyId
  else if is_uuid value then
    .ok (queryResourceIssued apiUrl endpoint
      (queryResourceByUuidPayload value extra))
  else
    .ok (queryResourceIssued apiUrl endpoint
      (queryResourceByNamePayload value extra))

/-- Result of a polling call: normal return, a raised error, or fuel
exhaustion (the Python loop still running after that many iterations).
Each constructor carries the durations of the `time.sleep` calls made,
in order. -/
inductive WaitRes where
  | ok (sleeps : List Nat)
  | err (e : WErr) (sleeps : List Nat)
  | fuelOut (sleeps : List Nat)
deriving Repr, DecidableEq

/-- Translation of `_is_resource_ready(endpoint, uuid)` as a function of
the polled resource's `state` field: "Erred" raises `InvalidStateError`,
otherwise readiness is `state == "OK"`. -/
def isResourceReady (state : String) : Except WErr Bool :=
  if state = "Erred" then .error .invalidState else .ok (state = "OK")

/-- The `raise TimeoutError` tail of `_wait_for_resource`, built with the
two `%`-formats of the source (note the second format interpolates the
`timeout` argument, and that the error sentence already ends with a
period). -/
def waitTimeoutRaise (endpoint uuid : String) (timeout : Nat)
    (sleeps : List Nat) : WaitRes :=
  match pyFormat
      "Resource \"%s\" with id \"%s\" has not changed state to stable."
      [endpoint, uuid] with
  | none => .err .typeError sleeps
  | some error =>
    match pyFormat "%s. Seconds passed: %s" [error, toString timeout] with
    | none => .err .typeError sleeps
    | some msg => .err (.timeoutError msg) sleeps

/-- The message carried by `_wait_for_resource`'s `TimeoutError`: the
pieces of the source's format strings interpolated with the endpoint,
the identifier, and the `timeout` argument. -/
def waitTimeoutMessage (endpoint uuid : String) (timeout : Nat) : String :=
  pyInterp ["", ". Seconds passed: ", ""]
    [pyInterp
      ["Resource \"", "\" with id \"",
       "\" has not changed state to stable."] [endpoint, uuid],
     toString timeout]

/-- The `while not ready` loop of `_wait_for_resource`; `probe k` is the
`state` field of the resource returned by the k-th
`_query_resource_by_uuid`. The first argument is loop fuel. Note that
the timeout check runs even when the probe of the current iteration
just turned `ready` true. -/
def waitForResourceLoop (probe : Nat → String) (endpoint uuid : String)
    (interval timeout : Nat) :
    Nat → Bool → Nat → Nat → List Nat → WaitRes
  | 0, ready, _, _, sleeps => if ready then .ok sleeps else .fuelOut sleeps
  | fuel + 1, ready, k, waited, sleeps =>
    if ready then .ok sleeps
    else
      let sleeps' := sleeps ++ [interval]
      match isResourceReady (probe k) with
      | .error e => .err e sleeps'
      | .ok rdy =>
        let waited' := waited + interval
        if timeout ≤ waited' then
          waitTimeoutRaise endpoint uuid timeout sleeps'
        else
          waitForResourceLoop probe endpoint uuid interval timeout fuel
            rdy (k + 1) waited' sleeps'

/-- Translation of `_wait_for_resource(endpoint, uuid, interval,
timeout)`: one initial readiness check, then the loop. -/
def waitForResource (probe : Nat → String) (endpoint uuid : String)
    (interval timeout fuel : Nat) : WaitRes :=
  match isResourceReady (probe 0) with
  | .error e => .err e []
  | .ok rdy =>
      waitForResourceLoop probe endpoint uuid interval timeout fuel rdy 1 0 []

/-- Translation of `_instance_has_external_ip`:
`len(resource["external_ips"]) > 0`. -/
def instanceHasExternalIp (externalIps : List String) : Bool :=
  0 < externalIps.length

/-- The `raise TimeoutError` tail of `_wait_for_external_ip`. The source
formats a two-placeholder string with the single string `uuid`
(`'... "%s" ... "%s" ...' % uuid`), so the arity check fails. -/
def externalIpTimeoutRaise (uuid : String) (timeout : Nat)
    (sleeps : List Nat) : WaitRes :=
  match pyFormat "Resource \"%s\" with id \"%s\" has not got external IP."
      [uuid] with
  | none => .err .typeError sleeps
  | some error =>
    match pyFormat "%s. Seconds passed: %s" [error, toString timeout] with
    | none => .err .typeError sleeps
    | some msg => .err (.timeoutError msg) sleeps

/-- The `while not ready` loop of `_wait_for_external_ip`; `ips k` is the
`external_ips` field of the resource at the k-th query. -/
def waitForExternalIpLoop (ips : Nat → List String) (uuid : String)
    (interval timeout : Nat) :
    Nat → Bool → Nat → Nat → List Nat → WaitRes
  | 0, ready, _, _, sleeps => if ready then .ok sleeps else .fuelOut sleeps
  | fuel + 1, ready, k, waited, sleeps =>
    if ready then .ok sleeps
    else
      let sleeps' := sleeps ++ [interval]
      let rdy := instanceHasExternalIp (ips k)
      let waited' := waited + interval
      if timeout ≤ waited' then
        externalIpTimeoutRaise uuid timeout sleeps'
      else
        waitForExternalIpLoop ips uuid interval timeout fuel
          rdy (k + 1) waited' sleeps'

/-- Translation of `_wait_for_external_ip(uuid, interval, timeout)`. -/
def waitForExternalIp (ips : Nat → List String) (uuid : String)
    (interval timeout fuel : Nat) : WaitRes :=
  waitForExternalIpLoop ips uuid interval timeout fuel
    (instanceHasExternalIp (ips 0)) 1 0 []

instance {α β : Type} [DecidableEq α] [DecidableEq β] :
    DecidableEq (Except α β)
  | .error a, .error b =>
      if h : a = b then .isTrue (congrArg Except.error h)
      else .isFalse (fun he => h (Except.error.inj he))
  | .error _, .ok _ => .isFalse Except.noConfusion
  | .ok _, .error _ => .isFalse Except.noConfusion
  | .ok a, .ok b =>
      if h : a = b then .isTrue (congrArg Except.ok h)
      else .isFalse (fun he => h (Except.ok.inj he))

/-- A well-formed page chain as `_get_all`'s loop walks it: starting from
a response already in hand, the `Link` header of each page mentions
`next` and positionally parses to the next URL, the auth-only transport
serves that URL with status 200, and the final page's `Link` header
mentions no `next`. The list collects the bodies of the pages after the
starting one. -/
inductive ChainFrom (fetchA : PageServer) : PageResponse → List (List Rec) → Prop where
  | last : ∀ resp link, resp.link = some link →
      pyContains link "next" = false → ChainFrom fetchA resp []
  | step : ∀ resp link nextUrl r2 rest, resp.link = some link →
      pyContains link "next" = true →
      parseNextUrl link = .ok nextUrl →
      fetchA nextUrl = some r2 → r2.status = 200 →
      ChainFrom fetchA r2 rest →
      ChainFrom fetchA resp (r2.body :: rest)

/-- Termination of a `_make_request` run: some amount of fuel suffices
for the recursion to produce a result. -/
def MakeRequestTerminates (server : Server) (method url : String)
    (vs : List Nat) (rc : Nat) : Prop :=
  ∃ fuel out, makeRequestAux server method vs fuel url rc none mrInit = some out

/-- A server that answers every request with a 301 redirect. -/
def constRedirectServer : Server :=
  fun _ => some ⟨301, "", some "http://redirect-target/"⟩

/-- A server that answers every request with a 409 conflict. -/
def conflictServer : Server := fun _ => some ⟨409, "conflict", none⟩

/-- A two-response script: one 409 conflict, then a 200 success. -/
def conflictThenOkServer : Server := fun n =>
  if n = 0 then some ⟨409, "busy", none⟩ else some ⟨200, "payload", none⟩

/-- Link header of a first page that has a next page. -/
def linkPage1 : String :=
  "<http://x/api/c/>; rel=\"first\", <http://x/api/c/?page=2>; rel=\"next\""

/-- Link header of a middle page (mentions `prev` and `next`). -/
def linkPage2 : String :=
  "<http://x/api/c/>; rel=\"first\", <http://x/api/c/>; rel=\"prev\", <http://x/api/c/?page=3>; rel=\"next\""

/-- Link header of a last page (mentions `prev` but no `next`). -/
def linkPage3 : String :=
  "<http://x/api/c/>; rel=\"first\", <http://x/api/c/?page=2>; rel=\"prev\""

/-- First-page transport of a three-page world: only the original URL
with the caller's filters is served. -/
def threePageFirst : PageServer := fun u =>
  if u = "http://x/api/c/" then
    some ⟨200, [[("name", "r1")]], some linkPage1⟩
  else none

/-- Auth-only transport of a three-page world: serves pages 2 and 3. -/
def threePageAuth : PageServer := fun u =>
  if u = "http://x/api/c/?page=2" then
    some ⟨200, [[("name", "r2")]], some linkPage2⟩
  else if u = "http://x/api/c/?page=3" then
    some ⟨200, [[("name", "r3")]], some linkPage3⟩
  else none

/-- First-page transport of a single-page world: a 200 page without a
`Link` header. -/
def singlePageFirst : PageServer := fun u =>
  if u = "http://x/api/s/" then some ⟨200, [[("name", "s1")]], none⟩
  else none

/-- Auth-only transport of a world whose second page carries no `Link`
header at all. -/
def noLinkPage2Auth : PageServer := fun u =>
  if u = "http://x/api/c/?page=2" then some ⟨200, [[("name", "r2")]], none⟩
  else none

/-- State probe that stays "Updating" for two probes and then reads
"OK": at `interval = 2, timeout = 3` the deadline fires on the very
probe that observed "OK". -/
def lateOkProbe : Nat → String := fun k => if k < 2 then "Updating" else "OK"

theorem mr_exhaust (server : Server) (method : String) (vs : List Nat)
    (fuel : Nat) (url : String) (prev : Option String) (st : MRState) :
    makeRequestAux server method vs (fuel + 1) url 0 prev st =
      some (.error (.retriesExhausted method url prev), st) := by
  simp [makeRequestAux]

theorem mr409_step (server : Server) (method : String) (vs : List Nat)
    (r : Response) (fuel : Nat) (url : String) (rc : Nat)
    (prev : Option String) (st : MRState)
    (hresp : server st.calls = some r) (h409 : r.status = 409)
    (hvs : (409 : Nat) ∉ vs) :
    makeRequestAux server method vs (fuel + 1) url (rc + 1) prev st =
      makeRequestAux server method vs fuel url rc (some r.text)
        ⟨st.calls + 1, st.sleeps ++ [2]⟩ := by
  simp [makeRequestAux, hresp, h409, hvs, redirectCodes]

theorem mr_success_json (server : Server) (method : String) (vs : List Nat)
    (r : Response) (fuel : Nat) (url : String) (rc : Nat)
    (prev : Option String) (st : MRState)
    (hresp : server st.calls = some r) (hvs : r.status ∈ vs)
    (hnr : ¬(method = "post" ∧ r.status ∈ redirectCodes))
    (hh : method ≠ "head") (ht : r.text ≠ "") :
    makeRequestAux server method vs (fuel + 1) url (rc + 1) prev st =
      some (.ok (.json r.text), ⟨st.calls + 1, st.sleeps⟩) := by
  simp [makeRequestAux, hresp, hvs, hnr, hh, ht]

theorem const409_run (server : Server) (method : String) (vs : List Nat)
    (r : Response) (hall : ∀ i, server i = some r) (h409 : r.status = 409)
    (hvs : (409 : Nat) ∉ vs) :
    ∀ rc fuel url prev (st : MRState),
      makeRequestAux server method vs (fuel + rc + 2) url (rc + 1) prev st =
        some (.error (.retriesExhausted method url (some r.text)),
          ⟨st.calls + (rc + 1), st.sleeps ++ List.replicate (rc + 1) 2⟩) := by
  intro rc
  induction rc with
  | zero =>
      intro fuel url prev st
      have s1 := mr409_step server method vs r (fuel + 1) url 0 prev st
        (hall st.calls) h409 hvs
      have s2 := mr_exhaust server method vs fuel url (some r.text)
        ⟨st.calls + 1, st.sleeps ++ [2]⟩
      exact s1.trans s2
  | succ rc ih =>
      intro fuel url prev st
      have s1 := mr409_step server method vs r (fuel + rc + 2) url (rc + 1)
        prev st (hall st.calls) h409 hvs
      refine s1.trans ((ih fuel url (some r.text)
        ⟨st.calls + 1, st.sleeps ++ [2]⟩).trans ?_)
      simp [List.replicate_succ, MRState.mk.injEq]
      omega

/-- C1: with the default retry budget of 3, a post-style call through
the request executor meets three consecutive 409 responses, sleeps 2
time units before each reissue ([2, 2, 2]), makes exactly 3 transport
calls, and then raises the retries-exhausted failure naming the method,
the URL and the last response's body; and a single 409 followed by a
response in the expected-success set returns that response's payload
after one backoff sleep. -/
theorem post_conflict_retry_c1 (server1 server2 : Server) (url : String)
    (validStates : List Nat) (r1 r2 r3 c s : Response) (fuel : Nat)
    (h0 : server1 0 = some r1) (h1 : server1 1 = some r2)
    (h2 : server1 2 = some r3)
    (h409a : r1.status = 409) (h409b : r2.status = 409)
    (h409c : r3.status = 409) (hvs : (409 : Nat) ∉ validStates)
    (g0 : server2 0 = some c) (gc : c.status = 409)
    (g1 : server2 1 = some s) (gs : s.status ∈ validStates)
    (gnr : s.status ∉ redirectCodes) (gt : s.text ≠ "") :
    mrPost server1 url validStates (fuel + 4) =
      some (.error (.retriesExhausted "post" url (some r3.text)),
        ⟨3, [2, 2, 2]⟩) ∧
    mrPost server2 url validStates (fuel + 2) =
      some (.ok (.json s.text), ⟨2, [2]⟩) := by
  constructor
  · have s1 := mr409_step server1 "post" validStates r1 (fuel + 3) url 2
      none ⟨0, []⟩ h0 h409a hvs
    have s2 := mr409_step server1 "post" validStates r2 (fuel + 2) url 1
      (some r1.text) ⟨1, [2]⟩ h1 h409b hvs
    have s3 := mr409_step server1 "post" validStates r3 (fuel + 1) url 0
      (some r2.text) ⟨2, [2, 2]⟩ h2 h409c hvs
    have s4 := mr_exhaust server1 "post" validStates fuel url
      (some r3.text) ⟨3, [2, 2, 2]⟩
    exact s1.trans (s2.trans (s3.trans s4))
  · have s1 := mr409_step server2 "post" validStates c (fuel + 1) url 2
      none ⟨0, []⟩ g0 gc hvs
    have s2 := mr_success_json server2 "post" validStates s fuel url 1
      (some c.text) ⟨1, [2]⟩ g1 gs (fun h => gnr h.2) (by decide) gt
    exact s1.trans s2

theorem post_conflict_retry_c1_witness :
    mrPost conflictServer "http://api/orders/" [200, 201] 10 =
      some (.error (.retriesExhausted "post" "http://api/orders/"
        (some "conflict")), ⟨3, [2, 2, 2]⟩) ∧
    mrPost conflictThenOkServer "http://api/orders/" [200, 201] 8 =
      some (.ok (.json "payload"), ⟨2, [2]⟩) :=
  post_conflict_retry_c1 conflictServer conflictThenOkServer
    "http://api/orders/" [200, 201]
    ⟨409, "conflict", none⟩ ⟨409, "conflict", none⟩ ⟨409, "conflict", none⟩
    ⟨409, "busy", none⟩ ⟨200, "payload", none⟩ 6
    rfl rfl rfl rfl rfl rfl (by decide) rfl rfl rfl (by decide)
    (by decide) (by decide)

/-- C10 (counterexample): the `_head` helper also omits `retry_count`
and therefore receives the default budget of 3 — against a constant-409
server it makes 3 transport calls and 3 backoff sleeps before the
retries-exhausted failure, while `_get` makes exactly 1 call and 1
sleep. This refutes the claim that only the post/put/patch/delete paths
receive the default budget of 3. -/
theorem helper_budgets_c10_counterexample :
    mrHead conflictServer "http://api/x/" 10 =
      some (.error (.retriesExhausted "head" "http://api/x/"
        (some "conflict")), ⟨3, [2, 2, 2]⟩) ∧
    mrGet conflictServer "http://api/x/" [200] 10 =
      some (.error (.retriesExhausted "get" "http://api/x/"
        (some "conflict")), ⟨1, [2]⟩) := by
  decide

/-- C10 (amended): every `_get` lookup runs with a conflict-retry budget
of 1 — the first 409 causes exactly one 2-second backoff sleep and then
the retries-exhausted failure, with no second transport call — while
post/put/patch/delete AND head (and any other `_make_request` call that
omits `retry_count`) receive the default budget of 3. -/
theorem helper_budgets_c10 (server : Server) (url : String)
    (vs : List Nat) (r : Response) (fuel : Nat)
    (hall : ∀ i, server i = some r) (h409 : r.status = 409)
    (hvs : (409 : Nat) ∉ vs) :
    mrGet server url vs (fuel + 2) =
      some (.error (.retriesExhausted "get" url (some r.text)), ⟨1, [2]⟩) ∧
    mrPost server url vs (fuel + 4) =
      some (.error (.retriesExhausted "post" url (some r.text)),
        ⟨3, [2, 2, 2]⟩) ∧
    mrPut server url vs (fuel + 4) =
      some (.error (.retriesExhausted "put" url (some r.text)),
        ⟨3, [2, 2, 2]⟩) ∧
    mrPatch server url vs (fuel + 4) =
      some (.error (.retriesExhausted "patch" url (some r.text)),
        ⟨3, [2, 2, 2]⟩) ∧
    mrDelete server url vs (fuel + 4) =
      some (.error (.retriesExhausted "delete" url (some r.text)),
        ⟨3, [2, 2, 2]⟩) ∧
    mrHead server url (fuel + 4) =
      some (.error (.retriesExhausted "head" url (some r.text)),
        ⟨3, [2, 2, 2]⟩) :=
  ⟨const409_run server "get" vs r hall h409 hvs 0 fuel url none mrInit,
   const409_run server "post" vs r hall h409 hvs 2 fuel url none mrInit,
   const409_run server "put" vs r hall h409 hvs 2 fuel url none mrInit,
   const409_run server "patch" vs r hall h409 hvs 2 fuel url none mrInit,
   const409_run server "delete" vs r hall h409 hvs 2 fuel url none mrInit,
   const409_run server "head" [200] r hall h409 (by decide) 2 fuel url
     none mrInit⟩

theorem helper_budgets_c10_witness :
    mrGet conflictServer "http://api/y/" [200] 7 =
      some (.error (.retriesExhausted "get" "http://api/y/"
        (some "conflict")), ⟨1, [2]⟩) ∧
    mrPost conflictServer "http://api/y/" [200] 9 =
      some (.error (.retriesExhausted "post" "http://api/y/"
        (some "conflict")), ⟨3, [2, 2, 2]⟩) ∧
    mrPut conflictServer "http://api/y/" [200] 9 =
      some (.error (.retriesExhausted "put" "http://api/y/"
        (some "conflict")), ⟨3, [2, 2, 2]⟩) ∧
    mrPatch conflictServer "http://api/y/" [200] 9 =
      some (.error (.retriesExhausted "patch" "http://api/y/"
        (some "conflict")), ⟨3, [2, 2, 2]⟩) ∧
    mrDelete conflictServer "http://api/y/" [200] 9 =
      some (.error (.retriesExhausted "delete" "http://api/y/"
        (some "conflict")), ⟨3, [2, 2, 2]⟩) ∧
    mrHead conflictServer "http://api/y/" 9 =
      some (.error (.retriesExhausted "head" "http://api/y/"
        (some "conflict")), ⟨3, [2, 2, 2]⟩) :=
  helper_budgets_c10 conflictServer "http://api/y/" [200]
    ⟨409, "conflict", none⟩ 5 (fun _ => rfl) rfl (by decide)

theorem constRedirect_diverges : ∀ fuel (url : String)
    (prev : Option String) (st : MRState),
    makeRequestAux constRedirectServer "post" [201] fuel url
      defaultRetryCount prev st = none := by
  intro fuel
  induction fuel with
  | zero => intro url prev st; rfl
  | succ f ih =>
      intro url prev st
      simp [makeRequestAux, constRedirectServer, redirectCodes,
        defaultRetryCount]
      exact ih _ _ _

/-- C5 (counterexample): the redirect-following recursion does not
terminate on every response sequence — against a server that answers
every post with a 301 redirect, no amount of fuel makes the run of
`_make_request` finish (the retry budget is never decremented on the
redirect path, so nothing bounds the chain). -/
theorem redirect_c5_counterexample :
    ¬ MakeRequestTerminates constRedirectServer "post"
      "http://api/orders/" [201] defaultRetryCount := by
  rintro ⟨fuel, out, h⟩
  rw [constRedirect_diverges] at h
  exact Option.noConfusion h

/-- C5 (amended): a post answered with a redirect status is re-issued
against the `Location` target with the retry budget preserved and the
diagnostic context reset; redirect handling applies only to the post
method group (any other method falls through to ordinary status
handling); and the redirect loop has no bound at all — an endless
redirect chain never terminates. -/
theorem redirect_follow_c5 (server server2 : Server) (vs vs2 : List Nat)
    (url url2 loc method2 : String) (r r2 : Response)
    (rc rc2 fuel fuel2 : Nat) (prev prev2 : Option String)
    (st st2 : MRState)
    (ha1 : server st.calls = some r) (ha2 : r.status ∈ redirectCodes)
    (ha3 : r.location = some loc)
    (hb1 : method2 ≠ "post") (hb2 : server2 st2.calls = some r2)
    (hb3 : r2.status ∈ redirectCodes) (hb4 : r2.status ∉ vs2)
    (hb5 : r2.status ≠ 409) :
    makeRequestAux server "post" vs (fuel + 1) url (rc + 1) prev st =
      makeRequestAux server "post" vs fuel loc (rc + 1) none
        ⟨st.calls + 1, st.sleeps⟩ ∧
    makeRequestAux server2 method2 vs2 (fuel2 + 1) url2 (rc2 + 1) prev2
        st2 =
      some (.error (.requestError url2 r2.status r2.text),
        ⟨st2.calls + 1, st2.sleeps⟩) ∧
    ¬ MakeRequestTerminates constRedirectServer "post"
      "http://api/orders/" [201] defaultRetryCount := by
  refine ⟨?_, ?_, ?_⟩
  · simp [makeRequestAux, ha1, ha2, ha3]
  · simp [makeRequestAux, hb1, hb2, hb3, hb4, hb5]
  · rintro ⟨fuelx, out, h⟩
    rw [constRedirect_diverges] at h
    exact Option.noConfusion h

theorem redirect_follow_c5_witness :
    (makeRequestAux constRedirectServer "post" [201] 6 "http://api/a/" 3
        none ⟨0, []⟩ =
      makeRequestAux constRedirectServer "post" [201] 5
        "http://redirect-target/" 3 none ⟨1, []⟩) ∧
    makeRequestAux constRedirectServer "get" [404] 6 "http://api/b/" 3
        (some "x") ⟨0, []⟩ =
      some (.error (.requestError "http://api/b/" 301 ""), ⟨1, []⟩) ∧
    ¬ MakeRequestTerminates constRedirectServer "post"
      "http://api/orders/" [201] defaultRetryCount :=
  redirect_follow_c5 constRedirectServer constRedirectServer [201] [404]
    "http://api/a/" "http://api/b/" "http://redirect-target/" "get"
    ⟨301, "", some "http://redirect-target/"⟩
    ⟨301, "", some "http://redirect-target/"⟩
    2 2 5 5 none (some "x") ⟨0, []⟩ ⟨0, []⟩
    rfl (by decide) rfl (by decide) rfl (by decide) (by decide) (by decide)

theorem getAllLoop_chain (fetchA : PageServer) {resp : PageResponse}
    {rest : List (List Rec)} (h : ChainFrom fetchA resp rest) :
    ∀ fuel acc, rest.length < fuel →
      getAllLoop fetchA fuel acc resp = some (.ok (acc ++ rest.flatten)) := by
  induction h with
  | last resp link hl hn =>
      intro fuel acc hf
      cases fuel with
      | zero => exact absurd hf (Nat.not_lt_zero _)
      | succ f => simp [getAllLoop, hl, hn]
  | step resp link nextUrl r2 rest hl hn hp h2 h2s hchain ih =>
      intro fuel acc hf
      cases fuel with
      | zero => exact absurd hf (Nat.not_lt_zero _)
      | succ f =>
          simp only [getAllLoop, hl, hn, hp, h2, h2s, if_true]
          rw [if_neg (by simp [h2s])]
          rw [ih f (acc ++ r2.body) (by simp at hf; omega)]
          simp

/-- C7: the pagination reader over n ≥ 1 linked pages returns the eager
concatenation of all pages' records in page order (within-page order
preserved by the list structure), every page after the first being
fetched through the auth-parameters-only transport `fetchA`; a single
page with no `Link` header yields exactly that page's records. -/
theorem pagination_order_c7 (fetchP fetchA : PageServer) (url : String)
    (resp : PageResponse) (rest : List (List Rec)) (fuel : Nat)
    (h0 : fetchP url = some resp) (h200 : resp.status = 200)
    (hfuel : rest.length < fuel) :
    (resp.link = none →
      getAll fetchP fetchA url fuel = some (.ok resp.body)) ∧
    (ChainFrom fetchA resp rest →
      getAll fetchP fetchA url fuel =
        some (.ok (resp.body ++ rest.flatten))) := by
  constructor
  · intro hnone
    simp [getAll, h0, h200, hnone]
  · intro hch
    obtain ⟨l, hl⟩ : ∃ l, resp.link = some l := by
      cases hch <;> exact ⟨_, by assumption⟩
    simp only [getAll, h0, h200]
    rw [if_neg (by simp [h200]), hl]
    exact getAllLoop_chain fetchA hch fuel resp.body hfuel

theorem pagination_order_c7_witness :
    getAll threePageFirst threePageAuth "http://x/api/c/" 3 =
      some (.ok [[("name", "r1")], [("name", "r2")], [("name", "r3")]]) ∧
    getAll singlePageFirst threePageAuth "http://x/api/s/" 3 =
      some (.ok [[("name", "s1")]]) := by
  constructor
  · exact (pagination_order_c7 threePageFirst threePageAuth
      "http://x/api/c/" ⟨200, [[("name", "r1")]], some linkPage1⟩
      [[[("name", "r2")]], [[("name", "r3")]]] 3 (by decide) rfl
      (by decide)).2
      (ChainFrom.step _ linkPage1 "http://x/api/c/?page=2"
        ⟨200, [[("name", "r2")]], some linkPage2⟩ _ rfl (by decide)
        (by decide) (by decide) rfl
        (ChainFrom.step _ linkPage2 "http://x/api/c/?page=3"
          ⟨200, [[("name", "r3")]], some linkPage3⟩ _ rfl (by decide)
          (by decide) (by decide) rfl
          (ChainFrom.last _ linkPage3 rfl (by decide))))
  · exact (pagination_order_c7 singlePageFirst threePageAuth
      "http://x/api/s/" ⟨200, [[("name", "s1")]], none⟩ [] 3 (by decide)
      rfl (by decide)).1 rfl

/-- C2 (counterexample): a second page served with NO `Link` header does
not end pagination gracefully — the loop condition reads
`response.headers["Link"]` and raises a `KeyError`, so the reader
errors out instead of returning the records read so far. -/
theorem pagination_missing_link_c2_counterexample :
    getAll threePageFirst noLinkPage2Auth "http://x/api/c/" 5 =
      some (.error .keyError) ∧
    some (Except.error WErr.keyError) ≠
      (some (.ok [[("name", "r1")], [("name", "r2")]]) :
        Option (Except WErr (List Rec))) := by
  decide

/-- C2 (amended): after the first page, pagination ends gracefully with
the records read so far exactly when the next page's `Link` header is
present but mentions no `next` relation; a page after the first with a
missing `Link` header instead raises a `KeyError`. -/
theorem pagination_link_end_c2 (fetchP fetchA : PageServer)
    (url nextUrl link link2 : String) (resp r2 : PageResponse) (fuel : Nat)
    (h0 : fetchP url = some resp) (h200 : resp.status = 200)
    (hl : resp.link = some link) (hn : pyContains link "next" = true)
    (hp : parseNextUrl link = .ok nextUrl)
    (h2 : fetchA nextUrl = some r2) (h2s : r2.status = 200) :
    (r2.link = some link2 → pyContains link2 "next" = false →
      getAll fetchP fetchA url (fuel + 2) =
        some (.ok (resp.body ++ r2.body))) ∧
    (r2.link = none →
      getAll fetchP fetchA url (fuel + 2) = some (.error .keyError)) := by
  have hstart : getAll fetchP fetchA url (fuel + 2) =
      getAllLoop fetchA (fuel + 1) (resp.body ++ r2.body) r2 := by
    simp only [getAll, h0]
    rw [if_neg (by simp [h200]), hl]
    show getAllLoop fetchA (fuel + 1 + 1) resp.body resp = _
    simp only [getAllLoop, hl, hn, hp, if_true, h2]
    rw [if_neg (by simp [h2s])]
  constructor
  · intro hl2 hn2
    rw [hstart]
    cases fuel with
    | zero => simp [getAllLoop, hl2, hn2]
    | succ f => simp [getAllLoop, hl2, hn2]
  · intro hl2
    rw [hstart]
    cases fuel with
    | zero => simp [getAllLoop, hl2]
    | succ f => simp [getAllLoop, hl2]

theorem pagination_link_end_c2_witness :
    getAll threePageFirst
      (fun u => if u = "http://x/api/c/?page=2" then
        some ⟨200, [[("name", "r2")]], some linkPage3⟩ else none)
      "http://x/api/c/" 4 =
      some (.ok [[("name", "r1")], [("name", "r2")]]) ∧
    getAll threePageFirst noLinkPage2Auth "http://x/api/c/" 4 =
      some (.error .keyError) := by
  constructor
  · exact (pagination_link_end_c2 threePageFirst _ "http://x/api/c/"
      "http://x/api/c/?page=2" linkPage1 linkPage3
      ⟨200, [[("name", "r1")]], some linkPage1⟩
      ⟨200, [[("name", "r2")]], some linkPage3⟩ 2 (by decide) rfl rfl
      (by decide) (by decide) (by decide) rfl).1 rfl (by decide)
  · exact (pagination_link_end_c2 threePageFirst noLinkPage2Auth
      "http://x/api/c/" "http://x/api/c/?page=2" linkPage1 linkPage3
      ⟨200, [[("name", "r1")]], some linkPage1⟩
      ⟨200, [[("name", "r2")]], none⟩ 2 (by decide) rfl rfl
      (by decide) (by decide) (by decide) rfl).2 rfl

/-- C3: resolution query multiplicity handling — an empty (falsy) result
raises `ObjectDoesNotExist`; two or more records with neither `get_first`
nor `get_few` raise `MultipleObjectsReturned`; with `get_first` (and not
`get_few`) the record at position zero is returned; with `get_few` the
full ordered result sequence is returned. -/
theorem resolution_multiplicity_c3 (url : String) (qp : Query)
    (res : GetRes) (a b : Rec) (t : List Rec) (gf : Bool) :
    (pyTruthyGetRes res = false →
      makeGetQuery url qp res gf gf = .error (.objectDoesNotExist url qp)) ∧
    (makeGetQuery url qp (.list (a :: b :: t)) false false =
      .error (.multipleObjectsReturned url qp)) ∧
    (makeGetQuery url qp (.list (a :: t)) true false = .ok (.one a)) ∧
    (makeGetQuery url qp (.list (a :: t)) gf true = .ok (.many (a :: t))) := by
  refine ⟨?_, ?_, ?_, ?_⟩
  · intro hfal
    simp [makeGetQuery, hfal]
  · simp [makeGetQuery, pyTruthyGetRes,
      show (1 : Nat) < t.length + 2 by omega]
  · by_cases h1 : 1 < (a :: t).length <;>
      simp [makeGetQuery, pyTruthyGetRes, h1]
  · by_cases h1 : 1 < (a :: t).length <;>
      simp [makeGetQuery, pyTruthyGetRes, h1]

theorem resolution_multiplicity_c3_witness :
    makeGetQuery "http://x/api/projects/" [("name_exact", "p")]
        .emptyStr true true =
      .error (.objectDoesNotExist "http://x/api/projects/"
        [("name_exact", "p")]) ∧
    makeGetQuery "http://x/api/projects/" [("name_exact", "p")]
        (.list [[("uuid", "1")], [("uuid", "2")]]) false false =
      .error (.multipleObjectsReturned "http://x/api/projects/"
        [("name_exact", "p")]) ∧
    makeGetQuery "http://x/api/projects/" [("name_exact", "p")]
        (.list [[("uuid", "1")], [("uuid", "2")]]) true false =
      .ok (.one [("uuid", "1")]) ∧
    makeGetQuery "http://x/api/projects/" [("name_exact", "p")]
        (.list [[("uuid", "1")], [("uuid", "2")]]) true true =
      .ok (.many [[("uuid", "1")], [("uuid", "2")]]) := by
  have h := resolution_multiplicity_c3 "http://x/api/projects/"
    [("name_exact", "p")] .emptyStr [("uuid", "1")] [("uuid", "2")]
    [[("uuid", "2")]] true
  exact ⟨h.1 (by decide), h.2.1, h.2.2.1, h.2.2.2⟩

theorem pyUpdate_append (e : Query) :
    ∀ base : Query,
    (∀ kv ∈ e, base.any (fun p => p.1 = kv.1) = false) →
    e.Pairwise (fun a b => a.1 ≠ b.1) →
    pyUpdate base e = base ++ e := by
  induction e with
  | nil => intro base _ _; simp [pyUpdate]
  | cons kv rest ih =>
      intro base h hp
      have hbase : base.any (fun p => p.1 = kv.1) = false := h kv (by simp)
      have h1 : pyUpdate base (kv :: rest) = pyUpdate (base ++ [kv]) rest := by
        simp [pyUpdate, hbase]
      rw [h1, ih (base ++ [kv]) ?_ ?_]
      · simp
      · intro kv' hm
        have hb := h kv' (by simp [hm])
        have hkk : kv.1 ≠ kv'.1 := (List.pairwise_cons.mp hp).1 kv' hm
        simp [List.any_append, hb, hkk]
      · exact (List.pairwise_cons.mp hp).2

/-- C6: for a non-empty identifier, `_get_resource` classifies with the
pure UUID parse `is_uuid` (no network involved in the classification):
on parse success the resolver issues the exact-match-on-unique-identifier
query (the uuid is popped into the URL path, the extra filters remaining
as parameters); on parse failure it issues the `name_exact` exact-match
query with the extra filters merged in. (`e` ranges over extra filter
sets that do not themselves carry a `uuid`/`name_exact` key and have no
duplicate keys.) -/
theorem resolver_classification_c6 (apiUrl endpoint value : String)
    (e : Query) (hv : value ≠ "")
    (h1 : ∀ kv ∈ e, kv.1 ≠ "uuid")
    (h2 : ∀ kv ∈ e, kv.1 ≠ "name_exact")
    (hnd : e.Pairwise (fun a b => a.1 ≠ b.1)) :
    (is_uuid value = true →
      getResourceIssued apiUrl endpoint value (some e) =
        .ok ⟨buildUrl apiUrl endpoint ++ value ++ "/", e⟩) ∧
    (is_uuid value = false →
      getResourceIssued apiUrl endpoint value (some e) =
        .ok ⟨buildUrl apiUrl endpoint, ("name_exact", value) :: e⟩) := by
  have hupd : ∀ k : String, (∀ kv ∈ e, kv.1 ≠ k) →
      pyUpdate [(k, value)] e = (k, value) :: e := by
    intro k hk
    rw [pyUpdate_append e [(k, value)] ?_ hnd]
    · simp
    · intro kv hm
      simp [Ne.symm (hk kv hm)]
  constructor
  · intro hu
    simp only [getResourceIssued, if_neg hv, hu, if_true,
      queryResourceByUuidPayload, hupd "uuid" h1]
    have hfind : lookupQ (("uuid", value) :: e) "uuid" = some value := by
      simp [lookupQ, List.find?_cons_of_pos]
    simp only [queryResourceIssued, hfind]
    simp only [Except.ok.injEq, IssuedQuery.mk.injEq]
    refine ⟨trivial, ?_⟩
    rw [List.filter_cons_of_neg (by simp)]
    exact List.filter_eq_self.mpr (fun kv hm => by simp [h1 kv hm])
  · intro hu
    simp only [getResourceIssued, if_neg hv, hu, Bool.false_eq_true,
      if_false, queryResourceByNamePayload, hupd "name_exact" h2]
    have hnone : List.find? (fun p => decide (p.1 = "uuid"))
        (("name_exact", value) :: e) = none := by
      refine List.find?_eq_none.mpr ?_
      rintro kv hm
      rcases List.mem_cons.mp hm with h | h
      · subst h; simp
      · simp [h1 kv h]
    have hfind : lookupQ (("name_exact", value) :: e) "uuid" = none := by
      simp [lookupQ, hnone]
    simp only [queryResourceIssued, hfind]

theorem resolver_classification_c6_witness :
    is_uuid "6b6e60b3-a6d3-428a-a8dc-b9c5e0a7f1e3" = true ∧
    is_uuid "web-server" = false ∧
    getResourceIssued "http://x/api/" "openstack-tenants"
        "6b6e60b3-a6d3-428a-a8dc-b9c5e0a7f1e3"
        (some [("project_uuid", "p")]) =
      .ok ⟨buildUrl "http://x/api/" "openstack-tenants" ++
        "6b6e60b3-a6d3-428a-a8dc-b9c5e0a7f1e3" ++ "/",
        [("project_uuid", "p")]⟩ ∧
    getResourceIssued "http://x/api/" "openstack-tenants" "web-server"
        (some [("project_uuid", "p")]) =
      .ok ⟨buildUrl "http://x/api/" "openstack-tenants",
        [("name_exact", "web-server"), ("project_uuid", "p")]⟩ := by
  have h1 := resolver_classification_c6 "http://x/api/"
    "openstack-tenants" "6b6e60b3-a6d3-428a-a8dc-b9c5e0a7f1e3"
    [("project_uuid", "p")] (by decide) (by decide) (by decide) (by decide)
  have h2 := resolver_classification_c6 "http://x/api/"
    "openstack-tenants" "web-server" [("project_uuid", "p")] (by decide)
    (by decide) (by decide) (by decide)
  exact ⟨by decide, by decide, h1.1 (by decide), h2.2 (by decide)⟩

theorem waitTimeoutRaise_eq (endpoint uuid : String) (timeout : Nat)
    (sleeps : List Nat) :
    waitTimeoutRaise endpoint uuid timeout sleeps =
      .err (.timeoutError (waitTimeoutMessage endpoint uuid timeout))
        sleeps := rfl

theorem waitLoop_timeout_inv (probe : Nat → String) (ep uuid : String)
    (interval timeout : Nat) :
    ∀ fuel ready k waited (sleeps : List Nat) (msg : String)
      (sleeps' : List Nat),
      waitForResourceLoop probe ep uuid interval timeout fuel ready k
          waited sleeps = .err (.timeoutError msg) sleeps' →
      waited = sleeps.sum →
      timeout ≤ sleeps'.sum ∧ msg = waitTimeoutMessage ep uuid timeout := by
  intro fuel
  induction fuel with
  | zero =>
      intro ready k waited sleeps msg sleeps' h _
      cases ready <;> simp [waitForResourceLoop] at h
  | succ f ih =>
      intro ready k waited sleeps msg sleeps' h hinv
      cases ready with
      | true => simp [waitForResourceLoop] at h
      | false =>
          simp only [waitForResourceLoop, Bool.false_eq_true, if_false] at h
          rcases hpe : isResourceReady (probe k) with e | rdy
          · rw [hpe] at h
            have he : e = WErr.invalidState := by
              revert hpe
              unfold isResourceReady
              split <;> intro hpe' <;> simp_all
            rw [he] at h
            simp at h
          · rw [hpe] at h
            simp only at h
            by_cases ht : timeout ≤ waited + interval
            · rw [if_pos ht, waitTimeoutRaise_eq] at h
              obtain ⟨hmsg, hsl⟩ := by
                simpa [WaitRes.err.injEq, WErr.timeoutError.injEq] using h
              subst hsl
              refine ⟨?_, hmsg.symm⟩
              simp [← hinv]
              omega
            · rw [if_neg ht] at h
              exact ih rdy (k + 1) (waited + interval)
                (sleeps ++ [interval]) msg sleeps' h (by simp [hinv])

/-- C4 (counterexample): with probe states Updating, Updating, OK at
`interval = 2, timeout = 3`, the poller raises `TimeoutError` even
though the final probe observed the success-terminal state "OK" (the
deadline check is not guarded by readiness), and the message reports
"Seconds passed: 3" although the accumulated sleep time is 4 — so the
TimeoutError is neither raised only in non-terminal states nor does its
message name the elapsed seconds. -/
theorem poll_timeout_c4_counterexample :
    waitForResource lateOkProbe "openstack-tenants" "abc" 2 3 10 =
      .err (.timeoutError
        (waitTimeoutMessage "openstack-tenants" "abc" 3)) [2, 2] ∧
    lateOkProbe 2 = "OK" ∧
    ([2, 2] : List Nat).sum = 4 ∧
    waitTimeoutMessage "openstack-tenants" "abc" 3 ≠
      waitTimeoutMessage "openstack-tenants" "abc" 4 := by
  decide

/-- C4 (amended): whenever `_wait_for_resource` raises `TimeoutError`,
the accumulated elapsed (slept) time has reached or exceeded the timeout
budget, and the message names the endpoint, the identifier and the
TIMEOUT BUDGET as "Seconds passed" (the actual elapsed time can be
larger, and the final probe may even have observed the success state). -/
theorem poll_timeout_c4 (probe : Nat → String) (ep uuid : String)
    (interval timeout fuel : Nat) (msg : String) (sleeps : List Nat)
    (h : waitForResource probe ep uuid interval timeout fuel =
      .err (.timeoutError msg) sleeps) :
    timeout ≤ sleeps.sum ∧ msg = waitTimeoutMessage ep uuid timeout := by
  unfold waitForResource at h
  rcases hpe : isResourceReady (probe 0) with e | rdy
  · rw [hpe] at h
    have he : e = WErr.invalidState := by
      revert hpe
      unfold isResourceReady
      split <;> intro hpe' <;> simp_all
    rw [he] at h
    simp at h
  · rw [hpe] at h
    exact waitLoop_timeout_inv probe ep uuid interval timeout fuel rdy 1 0
      [] msg sleeps h rfl

theorem poll_timeout_c4_witness :
    (1 : Nat) ≤ ([1] : List Nat).sum ∧
    waitTimeoutMessage "openstack-instances" "xyz" 1 =
      waitTimeoutMessage "openstack-instances" "xyz" 1 :=
  poll_timeout_c4 (fun _ => "Updating") "openstack-instances" "xyz" 1 1 5
    (waitTimeoutMessage "openstack-instances" "xyz" 1) [1] (by decide)

/-- C8: a resource whose state on the very first probe is the
success-terminal "OK" makes the poller return at once — no sleeps, and
the probe function beyond index 0 is unconstrained, so no further probe
can influence the result; a first probe of the error-terminal "Erred"
raises `InvalidStateError` at once, equally with no sleeps and no
further probes. -/
theorem poll_immediate_c8 (probe : Nat → String) (ep uuid : String)
    (interval timeout fuel : Nat) :
    (probe 0 = "OK" →
      waitForResource probe ep uuid interval timeout fuel = .ok []) ∧
    (probe 0 = "Erred" →
      waitForResource probe ep uuid interval timeout fuel =
        .err .invalidState []) := by
  constructor
  · intro h
    unfold waitForResource isResourceReady
    rw [h]
    cases fuel <;> simp [waitForResourceLoop]
  · intro h
    unfold waitForResource isResourceReady
    rw [h]
    simp

theorem poll_immediate_c8_witness :
    waitForResource (fun _ => "OK") "openstack-volumes" "v1" 10 600 7 =
      .ok [] ∧
    waitForResource (fun _ => "Erred") "openstack-volumes" "v1" 10 600 7 =
      .err .invalidState [] :=
  ⟨(poll_immediate_c8 (fun _ => "OK") "openstack-volumes" "v1" 10 600 7).1
    rfl,
   (poll_immediate_c8 (fun _ => "Erred") "openstack-volumes" "v1" 10 600
     7).2 rfl⟩

/-- C9 (code bug): `_wait_for_external_ip` formats the two-placeholder
string `'Resource "%s" with id "%s" has not got external IP.'` with the
single string `uuid` instead of a tuple, so when the timeout budget is
reached the call raises a `TypeError` (format-arity mismatch) instead of
the intended `TimeoutError` — here evaluated at an instance with no
external IP, `interval = 1, timeout = 1`, after one sleep. -/
theorem external_ip_poller_c9 :
    waitForExternalIp (fun _ => []) "instance-uuid" 1 1 5 =
      .err .typeError [1] ∧
    pyFormat "Resource \"%s\" with id \"%s\" has not got external IP."
      ["instance-uuid"] = none := by
  decide

end Waldur
